import Mathlib

/-!
Shallow embedding of `src/autosuspend/checks/activity.py` (the activity
check framework of autosuspend), covering the checks the specification
claims are about: `XIdleTime`, `NetworkBandwidth` and `LogindSessionsIdle`.

Python exceptions are modelled by an explicit error type, fallible code
returns `Except Err`.  External collaborators (the process table, the
`xprintidle` helper, the logind session lister, the socket directory) are
passed to the evaluation functions as explicit arguments.  Python floats
are modelled by exact rationals.
-/

/-- The exceptions that can escape the modelled code paths: the three
check-framework errors from `autosuspend.checks` plus the builtin Python
exceptions the source can raise. -/
inductive Err
  | configurationError (msg : String)
  | temporaryCheckError (msg : String)
  | severeCheckError (msg : String)
  | valueError (msg : String)
  | keyError (key : String)
  | attributeError (msg : String)
deriving DecidableEq, Repr

/-- Model of a compiled regular expression: the language it accepts, as a
boolean acceptance function on strings (the regex engine itself is the
external `re` library, not code of this repository). -/
def RegexL : Type := List Char → Bool

/-- Python `pattern.match(s)`: succeeds iff the pattern accepts some initial
segment of `s` (anchored at the start, not at the end). -/
def reMatch (p : RegexL) (s : List Char) : Bool :=
  (List.range (s.length + 1)).any fun n => p (s.take n)

/-- Python `pattern.fullmatch(s)`: succeeds iff the pattern accepts the whole
string. -/
def reFullmatch (p : RegexL) (s : List Char) : Bool := p s

/-- The default exclusion pattern `a^` of `XIdleTime.create`: its language is
empty, so neither `match` nor `fullmatch` ever succeeds. -/
def neverMatch : RegexL := fun _ => false

/-- A regex whose language is exactly one literal word. -/
def litRe (w : List Char) : RegexL := fun s => s == w

/-- Value of a nonempty all-digit character list. -/
def pyIntDigits (cs : List Char) : Option Nat :=
  if cs.isEmpty then none
  else if cs.all (fun c => c.isDigit) then
    some (cs.foldl (fun a c => 10 * a + (c.toNat - 48)) 0)
  else none

/-- Model of the Python builtin `int(str)`: surrounding whitespace is
ignored, then an optional sign followed by at least one digit; anything else
raises `ValueError`, modelled as `none`. -/
def pyInt (cs : List Char) : Option Int :=
  let t := ((cs.dropWhile (fun c => c.isWhitespace)).reverse.dropWhile
      (fun c => c.isWhitespace)).reverse
  match t with
  | '-' :: rest => (pyIntDigits rest).map (fun n => -(n : Int))
  | '+' :: rest => (pyIntDigits rest).map (fun n => (n : Int))
  | _ => (pyIntDigits t).map (fun n => (n : Int))

/-- The two session discovery strategies of `XIdleTime`; the source stores
the chosen bound method in `self._provide_sessions`, we record which one was
chosen. -/
inductive DiscoveryMethod
  | sockets
  | logind
deriving DecidableEq, Repr

/-- State of an `XIdleTime` check instance after construction. -/
structure XIdleTime where
  timeout : Int
  sessionMethod : DiscoveryMethod
  ignore_process_re : RegexL
  ignore_users_re : RegexL

/-- The body of `XIdleTime.__init__`: stores the timeout and the regexes and
selects the session discovery method, raising `ValueError` for an unknown
method name. -/
def XIdleTime.init (timeout : Int) (method : String)
    (ignore_process_re ignore_users_re : RegexL) : Except Err XIdleTime :=
  if method = "sockets" then
    .ok ⟨timeout, .sockets, ignore_process_re, ignore_users_re⟩
  else if method = "logind" then
    .ok ⟨timeout, .logind, ignore_process_re, ignore_users_re⟩
  else
    .error (.valueError ("Unknown session discovery method " ++ method))

/-- The classmethod `XIdleTime.create`.  The configuration accesses are
modelled by their outcomes: `timeoutArg` is the result of
`config.getint` with fallback 600 (`none` models a `ValueError` from an
unparsable value), the two regex arguments are the results of `re.compile`
with fallback pattern `a^` (`none` models `re.error`).  The arguments are
evaluated in source order before `__init__` runs; `re.error` and
`ValueError` are turned into `ConfigurationError`. -/
def XIdleTime.create (timeoutArg : Option Int) (method : String)
    (ignoreProcessArg ignoreUsersArg : Option RegexL) : Except Err XIdleTime :=
  match timeoutArg with
  | none => .error (.configurationError "Unable to parse configuration")
  | some t =>
    match ignoreProcessArg with
    | none => .error (.configurationError "Regular expression is invalid")
    | some ipr =>
      match ignoreUsersArg with
      | none => .error (.configurationError "Regular expression is invalid")
      | some iur =>
        match XIdleTime.init t method ipr iur with
        | .ok c => .ok c
        | .error _ => .error (.configurationError "Unable to parse configuration")

/-- A socket path found by `glob.glob` on `/tmp/.X11-unix/X*` together with
the outcome of resolving its owning user via `pwd.getpwuid(os.stat(.).st_uid)`;
`none` models `FileNotFoundError` or `KeyError` there. -/
structure SockEntry where
  path : String
  owner : Option String
deriving DecidableEq, Repr

/-- The method `XIdleTime._list_sessions_sockets`: for each socket, the
display number is `int(sock[len("/tmp/.X11-unix/X"):])` (the prefix has 16
characters); an unparsable number or an unresolvable owner is logged and
skipped, every surviving socket contributes `(display, user)`. -/
def XIdleTime.listSessionsSockets : List SockEntry → List (Int × String)
  | [] => []
  | sock :: rest =>
    match pyInt (sock.path.data.drop 16) with
    | none => XIdleTime.listSessionsSockets rest
    | some display =>
      match sock.owner with
      | none => XIdleTime.listSessionsSockets rest
      | some user => (display, user) :: XIdleTime.listSessionsSockets rest

/-- The method `XIdleTime._list_sessions_logind`: sessions are pairs of a
session id and a property mapping; only sessions containing both `Name` and
`Display` are kept, the display is `int(properties["Display"].replace(":", ""))`
(every colon removed), a `ValueError` from the conversion is logged and the
session skipped. -/
def XIdleTime.listSessionsLogind :
    List (String × List (String × String)) → List (Int × String)
  | [] => []
  | (_session_id, properties) :: rest =>
    match properties.lookup "Name", properties.lookup "Display" with
    | some nameV, some displayV =>
      match pyInt (displayV.data.filter (fun c => c != ':')) with
      | some d => (d, nameV) :: XIdleTime.listSessionsLogind rest
      | none => XIdleTime.listSessionsLogind rest
    | _, _ => XIdleTime.listSessionsLogind rest

/-- Dispatch through the stored `self._provide_sessions` bound method. -/
def XIdleTime.provideSessions (c : XIdleTime) (socks : List SockEntry)
    (logindSessions : List (String × List (String × String))) :
    List (Int × String) :=
  match c.sessionMethod with
  | .sockets => XIdleTime.listSessionsSockets socks
  | .logind => XIdleTime.listSessionsLogind logindSessions

/-- One entry of the `psutil.process_iter()` snapshot; `accessible = false`
models a process whose `username()` or `name()` call raises `NoSuchProcess`,
`ZombieProcess` or `AccessDenied` (such processes are ignored). -/
structure Proc where
  username : String
  name : String
  accessible : Bool
deriving DecidableEq, Repr

/-- The first loop of `XIdleTime._is_skip_process_running`: the names of all
accessible processes of the given user, in table order. -/
def XIdleTime.userProcessNames (processTable : List Proc) (user : String) :
    List String :=
  (processTable.filter fun p => p.accessible && (p.username == user)).map
    (fun p => p.name)

/-- The second loop of `XIdleTime._is_skip_process_running`.  `process`
ranges over the collected name strings.  When the ignore regex matches, the
source evaluates `self.logger.debug(..., process.name(), process.pid, ...)`
before `return True`; since `process` is a `str` at that point, evaluating
`process.name()` raises `AttributeError`, so the `return True` is never
reached. -/
def XIdleTime.skipProcessLoop (re : RegexL) : List String → Except Err Bool
  | [] => .ok false
  | process :: rest =>
    if reMatch re process.data then
      .error (.attributeError "str object has no attribute name")
    else
      XIdleTime.skipProcessLoop re rest

/-- The method `XIdleTime._is_skip_process_running`. -/
def XIdleTime.isSkipProcessRunning (c : XIdleTime) (processTable : List Proc)
    (user : String) : Except Err Bool :=
  XIdleTime.skipProcessLoop c.ignore_process_re
    (XIdleTime.userProcessNames processTable user)

/-- The active-reason string built in `XIdleTime.check` for a session whose
idle time is below the threshold. -/
def XIdleTime.mkReason (display : Int) (user : String) (idle_time : ℚ)
    (timeout : Int) : String :=
  "X session " ++ toString display ++ " of user " ++ user ++
    " has idle time " ++ toString idle_time ++ " < threshold " ++
    toString timeout

/-- The method `XIdleTime.check`, run on the session list returned by
`self._provide_sessions()`.  `xprintidle` models the privileged helper call
`subprocess.check_output(["sudo", "-u", user, "xprintidle"], env=env)`
followed by `float(output.strip())`: `some ms` is the parsed millisecond
value, `none` models `CalledProcessError` or `ValueError`, which the source
turns into `TemporaryCheckError`.  The parsed value is divided by 1000 to
obtain seconds. -/
def XIdleTime.check (c : XIdleTime) (processTable : List Proc)
    (xprintidle : Int → String → Option ℚ) :
    List (Int × String) → Except Err (Option String)
  | [] => .ok none
  | (display, user) :: rest =>
    if reMatch c.ignore_users_re user.data then
      XIdleTime.check c processTable xprintidle rest
    else
      match XIdleTime.isSkipProcessRunning c processTable user with
      | .error e => .error e
      | .ok true => XIdleTime.check c processTable xprintidle rest
      | .ok false =>
        match xprintidle display user with
        | none => .error (.temporaryCheckError "Unable to determine the idle time")
        | some ms =>
          let idle_time : ℚ := ms / 1000
          if idle_time < (c.timeout : ℚ) then
            .ok (some (XIdleTime.mkReason display user idle_time c.timeout))
          else
            XIdleTime.check c processTable xprintidle rest

/-- One `psutil.net_io_counters` entry: cumulative bytes sent and received
on an interface. -/
structure NetIOCounters where
  bytes_sent : Nat
  bytes_recv : Nat
deriving DecidableEq, Repr

/-- State of a `NetworkBandwidth` check instance: configuration plus the
fields `self._previous_values` and `self._previous_time`. -/
structure NetworkBandwidth where
  interfaces : List String
  threshold_send : ℚ
  threshold_receive : ℚ
  previous_values : List (String × NetIOCounters)
  previous_time : ℚ
deriving DecidableEq, Repr

/-- The body of `NetworkBandwidth.__init__`: stores the configuration and
takes the initial counter snapshot `psutil.net_io_counters(pernic=True)` and
timestamp `time.time()`, supplied here as arguments. -/
def NetworkBandwidth.init (interfaces : List String)
    (threshold_send threshold_receive : ℚ)
    (initial_values : List (String × NetIOCounters)) (initial_time : ℚ) :
    NetworkBandwidth :=
  ⟨interfaces, threshold_send, threshold_receive, initial_values, initial_time⟩

/-- The per-interface loop of `NetworkBandwidth.check`: a missing interface
raises `TemporaryCheckError`; otherwise the send and receive rates are the
counter deltas against `self._previous_values` divided by the time elapsed
since `self._previous_time`, and the first rate above its threshold yields
the active result. -/
def NetworkBandwidth.checkLoop (c : NetworkBandwidth)
    (new_values : List (String × NetIOCounters)) (new_time : ℚ) :
    List String → Except Err (Option String)
  | [] => .ok none
  | interface :: rest =>
    match new_values.lookup interface, c.previous_values.lookup interface with
    | some nv, some pv =>
      let delta_send : ℚ := (nv.bytes_sent : ℚ) - (pv.bytes_sent : ℚ)
      let rate_send : ℚ := delta_send / (new_time - c.previous_time)
      if rate_send > c.threshold_send then
        .ok (some ("Interface " ++ interface ++ " sending rate " ++
          toString rate_send ++ " byte/s higher than threshold " ++
          toString c.threshold_send))
      else
        let delta_receive : ℚ := (nv.bytes_recv : ℚ) - (pv.bytes_recv : ℚ)
        let rate_receive : ℚ := delta_receive / (new_time - c.previous_time)
        if rate_receive > c.threshold_receive then
          .ok (some ("Interface " ++ interface ++ " receive rate " ++
            toString rate_receive ++ " byte/s higher than threshold " ++
            toString c.threshold_receive))
        else
          NetworkBandwidth.checkLoop c new_values new_time rest
    | _, _ => .error (.temporaryCheckError ("Interface " ++ interface ++ " is missing"))

/-- The method `NetworkBandwidth.check`, given the fresh counter snapshot and
timestamp read at its start.  The pair also returns the post-state of the
instance: the method body contains no assignment to `self._previous_values`
or `self._previous_time`, so the state after the call is the state before
it. -/
def NetworkBandwidth.check (c : NetworkBandwidth)
    (new_values : List (String × NetIOCounters)) (new_time : ℚ) :
    Except Err (Option String) × NetworkBandwidth :=
  (NetworkBandwidth.checkLoop c new_values new_time c.interfaces, c)

/-- State of a `LogindSessionsIdle` check instance. -/
structure LogindSessionsIdle where
  types : List String
  states : List String
deriving DecidableEq, Repr

/-- Python `str.strip()`: remove leading and trailing whitespace. -/
def stripChars (cs : List Char) : List Char :=
  ((cs.dropWhile (fun c => c.isWhitespace)).reverse.dropWhile
    (fun c => c.isWhitespace)).reverse

/-- Python `str.split(",")`: split at every comma, keeping empty pieces. -/
def splitComma : List Char → List (List Char)
  | [] => [[]]
  | c :: rest =>
    match splitComma rest with
    | [] => if c = ',' then [[], []] else [[c]]
    | w :: ws => if c = ',' then [] :: w :: ws else (c :: w) :: ws

/-- Python `value.split(",")` followed by `.strip()` on every piece, as used
by `LogindSessionsIdle.create`. -/
def splitStrip (s : String) : List String :=
  (splitComma s.data).map (fun cs => String.mk (stripChars cs))

/-- The classmethod `LogindSessionsIdle.create`: `config.get` results for
the `types` and `states` options (`none` means the option is absent and the
fallback applies). -/
def LogindSessionsIdle.create (typesArg statesArg : Option String) :
    LogindSessionsIdle :=
  ⟨splitStrip (typesArg.getD "tty,x11,wayland"),
   splitStrip (statesArg.getD "active,online")⟩

/-- The method `LogindSessionsIdle.check` over the `list_logind_sessions()`
result.  Property mappings are indexed without any guard, so a missing key
raises `KeyError`; in the branch for a session of disallowed type the
logging call evaluates `properties["type"]` with a lowercase key before the
`continue`. -/
def LogindSessionsIdle.check (c : LogindSessionsIdle) :
    List (String × List (String × String)) → Except Err (Option String)
  | [] => .ok none
  | (session_id, properties) :: rest =>
    match properties.lookup "Type" with
    | none => .error (.keyError "Type")
    | some ty =>
      if ty ∈ c.types then
        match properties.lookup "State" with
        | none => .error (.keyError "State")
        | some st =>
          if st ∈ c.states then
            match properties.lookup "IdleHint" with
            | none => .error (.keyError "IdleHint")
            | some ih =>
              if ih = "no" then
                .ok (some ("Login session " ++ session_id ++ " is not idle"))
              else
                LogindSessionsIdle.check c rest
          else
            LogindSessionsIdle.check c rest
      else
        match properties.lookup "type" with
        | none => .error (.keyError "type")
        | some _ => LogindSessionsIdle.check c rest

/-- The display parse that claim C8 describes, stated from the words of the
specification for comparison with `XIdleTime.listSessionsLogind`: strip one
leading colon, then convert to an integer.  The source instead removes every
colon before converting. -/
def claimParseDisplay (s : String) : Option Int :=
  pyInt (match s.data with
    | ':' :: rest => rest
    | cs => cs)

/-- The user-exclusion test applied first to each session in
`XIdleTime.check`. -/
def userSkipped (c : XIdleTime) (user : String) : Bool :=
  reMatch c.ignore_users_re user.data

/-- Whether some process of the user matches the ignore regex, i.e. whether
`XIdleTime._is_skip_process_running` would reach its (crashing) match
branch. -/
def procMatchFor (c : XIdleTime) (processTable : List Proc) (user : String) :
    Bool :=
  (XIdleTime.userProcessNames processTable user).any
    (fun p => reMatch c.ignore_process_re p.data)

/-- Whether an evaluation result is the active outcome (a reason string). -/
def isActiveB : Except Err (Option String) → Bool
  | .ok (some _) => true
  | _ => false

/-- Concrete regex accepting exactly the process name used in the C1 and C4
scenarios. -/
def fxRegex : RegexL := litRe "firefox".data

/-- An XIdleTime instance with `ignore_if_process` matching `firefox`. -/
def c1Instance : XIdleTime := ⟨600, .sockets, fxRegex, neverMatch⟩

/-- A process table in which user `alice` runs `firefox`. -/
def c1Procs : List Proc := [⟨"alice", "firefox", true⟩]

/-- Counter snapshot taken at construction time of the bandwidth scenario. -/
def c2Counters0 : List (String × NetIOCounters) := [("eth0", ⟨0, 0⟩)]

/-- Counter snapshot after 100000 bytes were sent, constant afterwards. -/
def c2Counters1 : List (String × NetIOCounters) := [("eth0", ⟨100000, 0⟩)]

/-- A NetworkBandwidth instance built at time 0 from `c2Counters0` with both
thresholds at 100 byte/s. -/
def c2Instance : NetworkBandwidth :=
  NetworkBandwidth.init ["eth0"] 100 100 c2Counters0 0

/-- Concrete regex accepting exactly the one-letter string `a`. -/
def aLit : RegexL := litRe "a".data

/-- An XIdleTime instance whose `ignore_users` pattern is the literal `a`. -/
def c3Instance : XIdleTime := ⟨600, .sockets, neverMatch, aLit⟩

/-- An XIdleTime instance with timeout 300 and default exclusion patterns,
the end-to-end scenario of the specification. -/
def c4Instance : XIdleTime := ⟨300, .sockets, neverMatch, neverMatch⟩

/-- A helper outcome map: display 3 reports 700000 ms, every other display
fails. -/
def c5Xpr : Int → String → Option ℚ := fun d _ => if d = 3 then some 700000 else none

/-- A logind session whose Display property contains an inner colon. -/
def c8Session : String × List (String × String) :=
  ("s1", [("Name", "bob"), ("Display", ":1:2")])

/-- The LogindSessionsIdle instance produced by an empty configuration
section (both options at their defaults). -/
def defaultLogindIdle : LogindSessionsIdle := LogindSessionsIdle.create none none

/-- The empty-language default pattern never matches any string. -/
theorem reMatch_neverMatch (s : List Char) : reMatch neverMatch s = false := by
  simp [reMatch, neverMatch]

/-- Unfolding of the inner loop of the process-skip helper: it raises
AttributeError exactly when some collected process name matches the ignore
pattern, and otherwise reports no skip. -/
theorem skipProcessLoop_eq (re : RegexL) (l : List String) :
    XIdleTime.skipProcessLoop re l =
      if l.any (fun p => reMatch re p.data) then
        .error (.attributeError "str object has no attribute name")
      else .ok false := by
  induction l with
  | nil => rfl
  | cons p rest ih =>
    by_cases h : reMatch re p.data
    · simp [XIdleTime.skipProcessLoop, h]
    · simp [XIdleTime.skipProcessLoop, h, ih]

/-- The process-skip helper in terms of the match predicate. -/
theorem isSkipProcessRunning_eq (c : XIdleTime) (pt : List Proc) (u : String) :
    XIdleTime.isSkipProcessRunning c pt u =
      if procMatchFor c pt u then
        .error (.attributeError "str object has no attribute name")
      else .ok false := by
  simp only [XIdleTime.isSkipProcessRunning, procMatchFor, skipProcessLoop_eq]

/-- A session whose user matches `ignore_users` contributes nothing to the
evaluation. -/
theorem check_cons_userSkip (c : XIdleTime) (pt : List Proc)
    (xpr : Int → String → Option ℚ) (d : Int) (u : String)
    (rest : List (Int × String)) (h : userSkipped c u = true) :
    XIdleTime.check c pt xpr ((d, u) :: rest) = XIdleTime.check c pt xpr rest := by
  have h2 : reMatch c.ignore_users_re u.data = true := h
  simp [XIdleTime.check, h2]

/-- A session excluded by neither rule is probed: the evaluation continues
with the helper outcome for it. -/
theorem check_cons_probe (c : XIdleTime) (pt : List Proc)
    (xpr : Int → String → Option ℚ) (d : Int) (u : String)
    (rest : List (Int × String)) (hu : userSkipped c u = false)
    (hp : procMatchFor c pt u = false) :
    XIdleTime.check c pt xpr ((d, u) :: rest) =
      match xpr d u with
      | none => .error (.temporaryCheckError "Unable to determine the idle time")
      | some ms =>
        if ms / 1000 < (c.timeout : ℚ) then
          .ok (some (XIdleTime.mkReason d u (ms / 1000) c.timeout))
        else XIdleTime.check c pt xpr rest := by
  have hu2 : reMatch c.ignore_users_re u.data = false := hu
  simp [XIdleTime.check, hu2, isSkipProcessRunning_eq, hp]

/-- A session that is user-excluded, or probed with an idle time at or above
the threshold, leaves the evaluation of the remaining sessions unchanged. -/
theorem check_skip_or_idle (c : XIdleTime) (pt : List Proc)
    (xpr : Int → String → Option ℚ) (d : Int) (u : String)
    (rest : List (Int × String))
    (h : userSkipped c u = true ∨
      (procMatchFor c pt u = false ∧
        ∃ ms, xpr d u = some ms ∧ ¬(ms / 1000 < (c.timeout : ℚ)))) :
    XIdleTime.check c pt xpr ((d, u) :: rest) = XIdleTime.check c pt xpr rest := by
  rcases h with h | ⟨hp, ms, hms, hge⟩
  · exact check_cons_userSkip c pt xpr d u rest h
  · by_cases hu : userSkipped c u = true
    · exact check_cons_userSkip c pt xpr d u rest hu
    · rw [check_cons_probe c pt xpr d u rest (by simpa using hu) hp, hms]
      simp [hge]

/-- A block of sessions that are all user-excluded or idle at or above the
threshold contributes nothing to the evaluation. -/
theorem check_append_skips (c : XIdleTime) (pt : List Proc)
    (xpr : Int → String → Option ℚ) (pre rest : List (Int × String))
    (h : ∀ s ∈ pre, userSkipped c s.2 = true ∨
      (procMatchFor c pt s.2 = false ∧
        ∃ ms, xpr s.1 s.2 = some ms ∧ ¬(ms / 1000 < (c.timeout : ℚ)))) :
    XIdleTime.check c pt xpr (pre ++ rest) = XIdleTime.check c pt xpr rest := by
  induction pre with
  | nil => rfl
  | cons s pre ih =>
    obtain ⟨d, u⟩ := s
    rw [List.cons_append, check_skip_or_idle c pt xpr d u _ (h (d, u) (by simp))]
    exact ih (fun s hs => h s (by simp [hs]))

/-- If every discovered session is user-excluded or idle at or above the
threshold, the whole evaluation is inactive. -/
theorem check_all_skip (c : XIdleTime) (pt : List Proc)
    (xpr : Int → String → Option ℚ) (sessions : List (Int × String))
    (h : ∀ s ∈ sessions, userSkipped c s.2 = true ∨
      (procMatchFor c pt s.2 = false ∧
        ∃ ms, xpr s.1 s.2 = some ms ∧ ¬(ms / 1000 < (c.timeout : ℚ)))) :
    XIdleTime.check c pt xpr sessions = .ok none := by
  have h2 := check_append_skips c pt xpr sessions [] h
  rw [List.append_nil] at h2
  exact h2.trans rfl

/-- The reason string of an active idle-time result contains the display
number, the user name, the measured idle time and the threshold. -/
theorem mkReason_parts (d : Int) (u : String) (q : ℚ) (tm : Int) :
    (toString d).data <:+: (XIdleTime.mkReason d u q tm).data ∧
    u.data <:+: (XIdleTime.mkReason d u q tm).data ∧
    (toString q).data <:+: (XIdleTime.mkReason d u q tm).data ∧
    (toString tm).data <:+: (XIdleTime.mkReason d u q tm).data := by
  refine ⟨⟨"X session ".data,
      (" of user " ++ u ++ " has idle time " ++ toString q ++
        " < threshold " ++ toString tm).data, ?_⟩,
    ⟨("X session " ++ toString d ++ " of user ").data,
      (" has idle time " ++ toString q ++ " < threshold " ++ toString tm).data, ?_⟩,
    ⟨("X session " ++ toString d ++ " of user " ++ u ++ " has idle time ").data,
      (" < threshold " ++ toString tm).data, ?_⟩,
    ⟨("X session " ++ toString d ++ " of user " ++ u ++ " has idle time " ++
        toString q ++ " < threshold ").data, [], ?_⟩⟩ <;>
  simp [XIdleTime.mkReason, String.data_append, List.append_assoc]

/-- Claim C1 (code bug).  For a session whose user runs a process matching
`ignore_if_process`, the claim says the session is skipped and evaluation
continues with the remaining sessions; instead the match branch of
`_is_skip_process_running` evaluates `process.name()` on a `str` inside its
logging call and the whole evaluation aborts with AttributeError.  Had the
session been skipped as claimed, the evaluation of the remaining session
alone would have returned inactive, as the second equation shows. -/
theorem C1_skip_process_crashes :
    XIdleTime.check c1Instance c1Procs (fun _ _ => some 700000)
        [(0, "alice"), (1, "bob")] =
      .error (.attributeError "str object has no attribute name") ∧
    XIdleTime.check c1Instance c1Procs (fun _ _ => some 700000) [(1, "bob")] =
      .ok none := by
  constructor
  · rfl
  · have hus : userSkipped c1Instance "bob" = false := rfl
    have hpm : procMatchFor c1Instance c1Procs "bob" = false := rfl
    rw [check_cons_probe c1Instance c1Procs (fun _ _ => some 700000) 1 "bob" []
      hus hpm]
    norm_num [c1Instance, XIdleTime.check]

/-- Claim C2 (code bug).  `NetworkBandwidth.check` never assigns to
`_previous_values` or `_previous_time`, so the instance state after an
evaluation equals the state from construction, and two consecutive
evaluations between which the cumulative counters did not change (they are
`c2Counters1` at both times 10 and 20) still both report activity, because
the rates are computed against the construction-time snapshot. -/
theorem C2_previous_not_updated :
    (c2Instance.check c2Counters1 10).2 = c2Instance ∧
    isActiveB (c2Instance.check c2Counters1 10).1 = true ∧
    isActiveB ((c2Instance.check c2Counters1 10).2.check c2Counters1 20).1 = true := by
  refine ⟨rfl, ?_, ?_⟩ <;>
    norm_num [NetworkBandwidth.check, NetworkBandwidth.checkLoop,
      NetworkBandwidth.init, c2Instance, c2Counters0, c2Counters1,
      List.lookup, isActiveB]

/-- Claim C3 counterexample.  With an `ignore_users` pattern whose language
is the literal `a`, the user name `ab` is not a full match, yet the session
is skipped: the result is inactive although the helper would have reported
idle time 0 < 600 had the session been probed, because the source uses the
prefix-anchored `re.match`. -/
theorem C3_counterexample :
    reFullmatch aLit "ab".data = false ∧
    XIdleTime.check c3Instance [] (fun _ _ => some 0) [(0, "ab")] = .ok none := by
  constructor
  · rfl
  · rfl

/-- Claim C3 (amended).  A session is skipped because of its user exactly
when `ignore_users` matches a prefix of the user name anchored at the start
(Python `re.match` semantics), not only on a full match.  A user-skipped
session is never idle-probed: the evaluation equals the evaluation of the
remaining sessions for every helper outcome.  A session skipped by neither
rule is probed, observable because a helper failure for it surfaces. -/
theorem C3_match_semantics (c : XIdleTime) (pt : List Proc)
    (xpr : Int → String → Option ℚ) (d : Int) (u : String)
    (rest : List (Int × String)) :
    (reMatch c.ignore_users_re u.data = true →
      XIdleTime.check c pt xpr ((d, u) :: rest) = XIdleTime.check c pt xpr rest) ∧
    (reMatch c.ignore_users_re u.data = false → procMatchFor c pt u = false →
      xpr d u = none →
      XIdleTime.check c pt xpr ((d, u) :: rest) =
        .error (.temporaryCheckError "Unable to determine the idle time")) := by
  constructor
  · intro h
    exact check_cons_userSkip c pt xpr d u rest h
  · intro hu hp hfail
    rw [check_cons_probe c pt xpr d u rest hu hp, hfail]

/-- Witness for C3: the user `ab` is dropped without consulting the helper,
while the unmatched user `zz` is probed (its helper failure surfaces). -/
theorem C3_match_semantics_witness :
    XIdleTime.check c3Instance [] (fun _ _ => some 0) [(0, "ab")] =
      XIdleTime.check c3Instance [] (fun _ _ => some 0) [] ∧
    XIdleTime.check c3Instance [] (fun _ _ => none) [(0, "zz")] =
      .error (.temporaryCheckError "Unable to determine the idle time") :=
  ⟨(C3_match_semantics c3Instance [] (fun _ _ => some 0) 0 "ab" []).1 rfl,
   (C3_match_semantics c3Instance [] (fun _ _ => none) 0 "zz" []).2 rfl rfl rfl⟩

/-- Claim C4 counterexample.  With a process-excluded session first in
discovery order and a later non-excluded session of idle time 0 < 600, the
claim requires the active result naming the later session; the code instead
aborts with AttributeError when it examines the first session. -/
theorem C4_counterexample :
    XIdleTime.check c1Instance c1Procs (fun _ _ => some 0)
        [(0, "alice"), (1, "bob")] =
      .error (.attributeError "str object has no attribute name") := by rfl

/-- Claim C4 (amended).  Provided no discovered session has a user with a
process matching `ignore_if_process` (such a session would abort the
evaluation with AttributeError, see C1): if every non-user-excluded session
has measured idle time at or above the timeout, the result is inactive; the
first session in discovery order that is not user-excluded and has measured
idle time strictly below the timeout yields the active result, and its
reason string contains the display number, the user name, the measured idle
time and the threshold. -/
theorem C4_first_active_session (c : XIdleTime) (pt : List Proc)
    (xpr : Int → String → Option ℚ) (sessions : List (Int × String))
    (hproc : ∀ s ∈ sessions, procMatchFor c pt s.2 = false) :
    ((∀ s ∈ sessions, userSkipped c s.2 = false →
        ∃ ms, xpr s.1 s.2 = some ms ∧ ¬(ms / 1000 < (c.timeout : ℚ))) →
      XIdleTime.check c pt xpr sessions = .ok none) ∧
    (∀ pre d u post, sessions = pre ++ (d, u) :: post →
      (∀ s ∈ pre, userSkipped c s.2 = true ∨
        ∃ ms, xpr s.1 s.2 = some ms ∧ ¬(ms / 1000 < (c.timeout : ℚ))) →
      userSkipped c u = false →
      ∀ ms, xpr d u = some ms → ms / 1000 < (c.timeout : ℚ) →
        XIdleTime.check c pt xpr sessions =
          .ok (some (XIdleTime.mkReason d u (ms / 1000) c.timeout))) ∧
    (∀ d2 u2 q tm, (toString d2).data <:+: (XIdleTime.mkReason d2 u2 q tm).data ∧
      u2.data <:+: (XIdleTime.mkReason d2 u2 q tm).data ∧
      (toString q).data <:+: (XIdleTime.mkReason d2 u2 q tm).data ∧
      (toString tm).data <:+: (XIdleTime.mkReason d2 u2 q tm).data) := by
  refine ⟨?_, ?_, ?_⟩
  · intro h
    apply check_all_skip
    intro s hs
    by_cases hu : userSkipped c s.2 = true
    · exact Or.inl hu
    · have hu2 : userSkipped c s.2 = false := by simpa using hu
      exact Or.inr ⟨hproc s hs, h s hs hu2⟩
  · intro pre d u post hEq hpre hu ms hms hlt
    subst hEq
    rw [check_append_skips c pt xpr pre _ (fun s hs => by
      rcases hpre s hs with h | h
      · exact Or.inl h
      · exact Or.inr ⟨hproc s (List.mem_append_left _ hs), h⟩)]
    rw [check_cons_probe c pt xpr d u post hu
      (hproc (d, u) (List.mem_append_right _ (List.mem_cons_self _ _))), hms]
    simp [hlt]
  · intro d2 u2 q tm
    exact mkReason_parts d2 u2 q tm

/-- Witness for C4: the end-to-end scenario of the specification, timeout
300, one session on display 7 of user alice: a measured idle time of 120
seconds yields the active result with the full reason string, while 400
seconds yields inactive. -/
theorem C4_first_active_session_witness :
    XIdleTime.check c4Instance [] (fun _ _ => some 120000) [(7, "alice")] =
      .ok (some (XIdleTime.mkReason 7 "alice" 120 300)) ∧
    XIdleTime.check c4Instance [] (fun _ _ => some 400000) [(7, "alice")] =
      .ok none := by
  constructor
  · have h := (C4_first_active_session c4Instance [] (fun _ _ => some 120000)
      [(7, "alice")] (fun s _ => rfl)).2.1 [] 7 "alice" [] rfl
      (fun s hs => absurd hs (List.not_mem_nil s)) rfl 120000 rfl
      (by norm_num [c4Instance])
    rw [h]
    norm_num [c4Instance]
  · exact (C4_first_active_session c4Instance [] (fun _ _ => some 400000)
      [(7, "alice")] (fun s _ => rfl)).1
      (fun s _ _ => ⟨400000, rfl, by norm_num [c4Instance]⟩)

/-- Claim C5.  The helper output is parsed as a millisecond duration and
divided by 1000 to obtain seconds, and a helper invocation or parse failure
at the first probed session aborts the whole evaluation with
TemporaryCheckError, for every list of sessions not yet examined. -/
theorem C5_helper_failure (c : XIdleTime) (pt : List Proc)
    (xpr : Int → String → Option ℚ) (pre : List (Int × String)) (d : Int)
    (u : String) (post : List (Int × String))
    (hpre : ∀ s ∈ pre, userSkipped c s.2 = true ∨
      (procMatchFor c pt s.2 = false ∧
        ∃ ms, xpr s.1 s.2 = some ms ∧ ¬(ms / 1000 < (c.timeout : ℚ))))
    (hu : userSkipped c u = false) (hp : procMatchFor c pt u = false) :
    (xpr d u = none →
      XIdleTime.check c pt xpr (pre ++ (d, u) :: post) =
        .error (.temporaryCheckError "Unable to determine the idle time")) ∧
    (∀ ms, xpr d u = some ms → ms / 1000 < (c.timeout : ℚ) →
      XIdleTime.check c pt xpr (pre ++ (d, u) :: post) =
        .ok (some (XIdleTime.mkReason d u (ms / 1000) c.timeout))) := by
  constructor
  · intro hfail
    rw [check_append_skips c pt xpr pre _ hpre,
      check_cons_probe c pt xpr d u post hu hp, hfail]
  · intro ms hms hlt
    rw [check_append_skips c pt xpr pre _ hpre,
      check_cons_probe c pt xpr d u post hu hp, hms]
    simp [hlt]

/-- Witness for C5: after a first session idle beyond the threshold, a
helper failure for display 0 aborts the evaluation although a further
session remains unexamined; with a successful 1000 ms measurement instead,
the reported idle time is exactly one second. -/
theorem C5_helper_failure_witness :
    XIdleTime.check c3Instance [] c5Xpr [(3, "eve"), (0, "u"), (9, "w")] =
      .error (.temporaryCheckError "Unable to determine the idle time") ∧
    XIdleTime.check c3Instance [] (fun _ _ => some 1000) [(0, "u")] =
      .ok (some (XIdleTime.mkReason 0 "u" 1 600)) := by
  constructor
  · exact (C5_helper_failure c3Instance [] c5Xpr [(3, "eve")] 0 "u" [(9, "w")]
      (by
        intro s hs
        simp only [List.mem_singleton] at hs
        subst hs
        exact Or.inr ⟨rfl, 700000, rfl, by norm_num [c3Instance]⟩)
      rfl rfl).1 rfl
  · have h := (C5_helper_failure c3Instance [] (fun _ _ => some 1000) [] 0 "u" []
      (fun s hs => absurd hs (List.not_mem_nil s)) rfl rfl).2 1000 rfl
      (by norm_num [c3Instance])
    rw [List.nil_append] at h
    rw [h]
    norm_num [c3Instance]

/-- Claim C6.  A `method` value other than sockets and logind makes
`XIdleTime.create` return ConfigurationError (the ValueError raised by
`__init__` is caught and converted, no other error kind escapes) and no
instance is constructed; for sockets and logind the corresponding discovery
strategy is selected and used by `_provide_sessions`. -/
theorem C6_method_validation (t : Int) (ipr iur : RegexL) (method : String) :
    (method ≠ "sockets" → method ≠ "logind" →
      XIdleTime.create (some t) method (some ipr) (some iur) =
        .error (.configurationError "Unable to parse configuration")) ∧
    (XIdleTime.create (some t) "sockets" (some ipr) (some iur) =
      .ok ⟨t, .sockets, ipr, iur⟩) ∧
    (XIdleTime.create (some t) "logind" (some ipr) (some iur) =
      .ok ⟨t, .logind, ipr, iur⟩) ∧
    (∀ c : XIdleTime, c.sessionMethod = .sockets → ∀ socks lg,
      XIdleTime.provideSessions c socks lg = XIdleTime.listSessionsSockets socks) ∧
    (∀ c : XIdleTime, c.sessionMethod = .logind → ∀ socks lg,
      XIdleTime.provideSessions c socks lg = XIdleTime.listSessionsLogind lg) := by
  refine ⟨?_, rfl, rfl, ?_, ?_⟩
  · intro h1 h2
    simp [XIdleTime.create, XIdleTime.init, h1, h2]
  · intro c h socks lg
    simp [XIdleTime.provideSessions, h]
  · intro c h socks lg
    simp [XIdleTime.provideSessions, h]

/-- Witness for C6: the method value bogus is rejected with
ConfigurationError while sockets and logind select their strategies. -/
theorem C6_method_validation_witness :
    XIdleTime.create (some 600) "bogus" (some neverMatch) (some neverMatch) =
      .error (.configurationError "Unable to parse configuration") ∧
    XIdleTime.create (some 600) "sockets" (some neverMatch) (some neverMatch) =
      .ok ⟨600, .sockets, neverMatch, neverMatch⟩ ∧
    XIdleTime.create (some 600) "logind" (some neverMatch) (some neverMatch) =
      .ok ⟨600, .logind, neverMatch, neverMatch⟩ :=
  ⟨(C6_method_validation 600 neverMatch neverMatch "bogus").1
      (by decide) (by decide),
   (C6_method_validation 600 neverMatch neverMatch "bogus").2.1,
   (C6_method_validation 600 neverMatch neverMatch "bogus").2.2.1⟩

/-- The per-endpoint outcome of socket-scan discovery. -/
def sockParse (s : SockEntry) : Option (Int × String) :=
  match pyInt (s.path.data.drop 16), s.owner with
  | some d, some u => some (d, u)
  | _, _ => none

/-- Socket-scan discovery keeps exactly the per-endpoint successes. -/
theorem listSessionsSockets_eq_filterMap (socks : List SockEntry) :
    XIdleTime.listSessionsSockets socks = socks.filterMap sockParse := by
  induction socks with
  | nil => rfl
  | cons s rest ih =>
    cases hp : pyInt (s.path.data.drop 16) with
    | none => simp [XIdleTime.listSessionsSockets, List.filterMap_cons,
        sockParse, hp, ih]
    | some d =>
      cases ho : s.owner with
      | none => simp [XIdleTime.listSessionsSockets, List.filterMap_cons,
          sockParse, hp, ho, ih]
      | some u => simp [XIdleTime.listSessionsSockets, List.filterMap_cons,
          sockParse, hp, ho, ih]

/-- Characterisation of a successful per-endpoint parse. -/
theorem sockParse_eq_some (s : SockEntry) (d : Int) (u : String) :
    sockParse s = some (d, u) ↔
      pyInt (s.path.data.drop 16) = some d ∧ s.owner = some u := by
  cases hp : pyInt (s.path.data.drop 16) with
  | none => simp [sockParse, hp]
  | some d2 =>
    cases ho : s.owner with
    | none => simp [sockParse, hp, ho]
    | some u2 => simp [sockParse, hp, ho, Prod.mk.injEq, eq_comm]

/-- Claim C7.  Socket-scan discovery returns exactly the endpoints whose
trailing display number parses as an integer and whose owner resolves, in
discovery order; an endpoint failing either step is dropped while discovery
continues over the remaining endpoints (the discovery function is total, so
no error is raised). -/
theorem C7_socket_discovery (socks : List SockEntry) :
    (∀ d u, (d, u) ∈ XIdleTime.listSessionsSockets socks ↔
      ∃ s ∈ socks, pyInt (s.path.data.drop 16) = some d ∧ s.owner = some u) ∧
    (∀ s rest, pyInt (s.path.data.drop 16) = none →
      XIdleTime.listSessionsSockets (s :: rest) =
        XIdleTime.listSessionsSockets rest) ∧
    (∀ s rest, s.owner = none →
      XIdleTime.listSessionsSockets (s :: rest) =
        XIdleTime.listSessionsSockets rest) := by
  refine ⟨?_, ?_, ?_⟩
  · intro d u
    rw [listSessionsSockets_eq_filterMap]
    simp [List.mem_filterMap, sockParse_eq_some]
  · intro s rest h
    simp [XIdleTime.listSessionsSockets, h]
  · intro s rest h
    cases hp : pyInt (s.path.data.drop 16) with
    | none => simp [XIdleTime.listSessionsSockets, hp]
    | some d => simp [XIdleTime.listSessionsSockets, hp, h]

/-- Witness for C7: an endpoint with an unparsable trailing suffix and an
endpoint with no resolvable owner are both dropped without error. -/
theorem C7_socket_discovery_witness :
    XIdleTime.listSessionsSockets
        [⟨"/tmp/.X11-unix/Xabc", some "bob"⟩, ⟨"/tmp/.X11-unix/X5", none⟩] =
      XIdleTime.listSessionsSockets [⟨"/tmp/.X11-unix/X5", none⟩] ∧
    XIdleTime.listSessionsSockets [⟨"/tmp/.X11-unix/X5", none⟩] =
      XIdleTime.listSessionsSockets [] :=
  ⟨(C7_socket_discovery []).2.1 ⟨"/tmp/.X11-unix/Xabc", some "bob"⟩
      [⟨"/tmp/.X11-unix/X5", none⟩] rfl,
   (C7_socket_discovery []).2.2 ⟨"/tmp/.X11-unix/X5", none⟩ [] rfl⟩

/-- Claim C8 counterexample.  For the Display value `:1:2` the parse the
claim describes (strip a leading colon, then convert) fails, so the claim
requires the session to be skipped; the source removes every colon instead
and keeps the session with display number 12. -/
theorem C8_counterexample :
    XIdleTime.listSessionsLogind [c8Session] = [(12, "bob")] ∧
    claimParseDisplay ":1:2" = none := by
  constructor
  · rfl
  · rfl

/-- The per-session outcome of logind discovery. -/
def logindParse (s : String × List (String × String)) : Option (Int × String) :=
  match s.2.lookup "Name", s.2.lookup "Display" with
  | some nameV, some displayV =>
    match pyInt (displayV.data.filter (fun c => c != ':')) with
    | some d => some (d, nameV)
    | none => none
  | _, _ => none

/-- Logind discovery keeps exactly the per-session successes. -/
theorem listSessionsLogind_eq_filterMap
    (sessions : List (String × List (String × String))) :
    XIdleTime.listSessionsLogind sessions = sessions.filterMap logindParse := by
  induction sessions with
  | nil => rfl
  | cons s rest ih =>
    obtain ⟨sid, props⟩ := s
    cases hn : props.lookup "Name" with
    | none => simp [XIdleTime.listSessionsLogind, List.filterMap_cons,
        logindParse, hn, ih]
    | some nameV =>
      cases hd : props.lookup "Display" with
      | none => simp [XIdleTime.listSessionsLogind, List.filterMap_cons,
          logindParse, hn, hd, ih]
      | some displayV =>
        cases hp : pyInt (displayV.data.filter (fun c => c != ':')) with
        | none => simp [XIdleTime.listSessionsLogind, List.filterMap_cons,
            logindParse, hn, hd, hp, ih]
        | some d => simp [XIdleTime.listSessionsLogind, List.filterMap_cons,
            logindParse, hn, hd, hp, ih]

/-- Characterisation of a successful per-session logind parse. -/
theorem logindParse_eq_some (s : String × List (String × String)) (d : Int)
    (n : String) :
    logindParse s = some (d, n) ↔
      s.2.lookup "Name" = some n ∧
      ∃ disp, s.2.lookup "Display" = some disp ∧
        pyInt (disp.data.filter (fun c => c != ':')) = some d := by
  cases hn : s.2.lookup "Name" with
  | none => simp [logindParse, hn]
  | some nameV =>
    cases hd : s.2.lookup "Display" with
    | none => simp [logindParse, hn, hd]
    | some displayV =>
      cases hp : pyInt (displayV.data.filter (fun c => c != ':')) with
      | none =>
        simp only [logindParse, hn, hd, hp]
        constructor
        · intro h; cases h
        · rintro ⟨h1, disp, h2, h3⟩
          cases h2
          rw [hp] at h3
          cases h3
      | some d2 =>
        simp only [logindParse, hn, hd, hp, Option.some.injEq, Prod.mk.injEq]
        constructor
        · rintro ⟨rfl, rfl⟩
          exact ⟨rfl, displayV, rfl, hp⟩
        · rintro ⟨h1, disp, h2, h3⟩
          cases h1
          cases h2
          rw [hp] at h3
          cases h3
          exact ⟨rfl, rfl⟩

/-- Claim C8 (amended).  Logind discovery keeps exactly the sessions whose
property mapping contains both Name and Display; the display is parsed by
removing every colon character and converting the remainder to an integer
(so the Display value `:3` still yields display 3, but an inner colon is
also deleted rather than making the parse fail); sessions missing either
property or with an unparsable display are skipped without an error. -/
theorem C8_logind_discovery (sessions : List (String × List (String × String))) :
    (∀ d n, (d, n) ∈ XIdleTime.listSessionsLogind sessions ↔
      ∃ s ∈ sessions, s.2.lookup "Name" = some n ∧
        ∃ disp, s.2.lookup "Display" = some disp ∧
          pyInt (disp.data.filter (fun c => c != ':')) = some d) ∧
    (∀ sid props rest, props.lookup "Name" = none ∨ props.lookup "Display" = none →
      XIdleTime.listSessionsLogind ((sid, props) :: rest) =
        XIdleTime.listSessionsLogind rest) ∧
    (∀ sid props rest disp, props.lookup "Display" = some disp →
      pyInt (disp.data.filter (fun c => c != ':')) = none →
      XIdleTime.listSessionsLogind ((sid, props) :: rest) =
        XIdleTime.listSessionsLogind rest) ∧
    pyInt (":3".data.filter (fun c => c != ':')) = some 3 := by
  refine ⟨?_, ?_, ?_, rfl⟩
  · intro d n
    rw [listSessionsLogind_eq_filterMap]
    simp [List.mem_filterMap, logindParse_eq_some]
  · intro sid props rest h
    rcases h with h | h
    · simp [XIdleTime.listSessionsLogind, h]
    · cases hn : props.lookup "Name" with
      | none => simp [XIdleTime.listSessionsLogind, hn]
      | some nameV => simp [XIdleTime.listSessionsLogind, hn, h]
  · intro sid props rest disp hd hp
    cases hn : props.lookup "Name" with
    | none => simp [XIdleTime.listSessionsLogind, hn]
    | some nameV => simp [XIdleTime.listSessionsLogind, hn, hd, hp]

/-- Witness for C8: a session missing its Display property is dropped
without error, and one whose colon-stripped display is unparsable is also
dropped. -/
theorem C8_logind_discovery_witness :
    XIdleTime.listSessionsLogind [("s2", [("Name", "x")])] =
      XIdleTime.listSessionsLogind [] ∧
    XIdleTime.listSessionsLogind [("s3", [("Name", "x"), ("Display", ":z")])] =
      XIdleTime.listSessionsLogind [] :=
  ⟨(C8_logind_discovery []).2.1 "s2" [("Name", "x")] [] (Or.inr rfl),
   (C8_logind_discovery []).2.2.1 "s3" [("Name", "x"), ("Display", ":z")] []
     ":z" rfl rfl⟩

/-- Claim C9 (code bug).  By the claim, a session of disallowed type is
never inspected further and, with no allowed session having IdleHint no,
the evaluation returns inactive; the code instead evaluates
`properties["type"]` with a lowercase key inside the logging call of that
branch, and since the mapping only carries `Type`, the whole evaluation
aborts with KeyError. -/
theorem C9_lowercase_type_keyerror :
    LogindSessionsIdle.check defaultLogindIdle
        [("s1", [("Type", "bogus"), ("State", "active"), ("IdleHint", "no")])] =
      .error (.keyError "type") := by rfl

/-- Claim C10.  `LogindSessionsIdle.check` indexes the property mapping of
the session it examines without any guard: a missing Type key, a missing
lowercase type key for a session of disallowed Type, a missing State key
for an allowed Type, and a missing IdleHint key for an allowed Type and
State each abort the evaluation with the corresponding KeyError, which is
none of the three check-framework error kinds. -/
theorem C10_unguarded_key_lookups (c : LogindSessionsIdle) (sid : String)
    (props : List (String × String))
    (rest : List (String × List (String × String))) :
    (props.lookup "Type" = none →
      LogindSessionsIdle.check c ((sid, props) :: rest) =
        .error (.keyError "Type")) ∧
    (∀ ty, props.lookup "Type" = some ty → ty ∉ c.types →
      props.lookup "type" = none →
      LogindSessionsIdle.check c ((sid, props) :: rest) =
        .error (.keyError "type")) ∧
    (∀ ty, props.lookup "Type" = some ty → ty ∈ c.types →
      props.lookup "State" = none →
      LogindSessionsIdle.check c ((sid, props) :: rest) =
        .error (.keyError "State")) ∧
    (∀ ty st, props.lookup "Type" = some ty → ty ∈ c.types →
      props.lookup "State" = some st → st ∈ c.states →
      props.lookup "IdleHint" = none →
      LogindSessionsIdle.check c ((sid, props) :: rest) =
        .error (.keyError "IdleHint")) ∧
    (∀ k m, Err.keyError k ≠ Err.configurationError m ∧
      Err.keyError k ≠ Err.temporaryCheckError m ∧
      Err.keyError k ≠ Err.severeCheckError m) := by
  refine ⟨?_, ?_, ?_, ?_, ?_⟩
  · intro h
    simp [LogindSessionsIdle.check, h]
  · intro ty h1 h2 h3
    simp [LogindSessionsIdle.check, h1, h2, h3]
  · intro ty h1 h2 h3
    simp [LogindSessionsIdle.check, h1, h2, h3]
  · intro ty st h1 h2 h3 h4 h5
    simp [LogindSessionsIdle.check, h1, h2, h3, h4, h5]
  · intro k m
    refine ⟨?_, ?_, ?_⟩ <;> intro h <;> cases h

/-- Witness for C10: with the default configuration, a session carrying
only an allowed Type stops with KeyError State, and a session carrying only
a disallowed Type stops with KeyError type. -/
theorem C10_unguarded_key_lookups_witness :
    LogindSessionsIdle.check defaultLogindIdle [("s1", [("Type", "tty")])] =
      .error (.keyError "State") ∧
    LogindSessionsIdle.check defaultLogindIdle [("s2", [("Type", "bogus")])] =
      .error (.keyError "type") :=
  ⟨(C10_unguarded_key_lookups defaultLogindIdle "s1" [("Type", "tty")] []).2.2.1
      "tty" rfl (by decide) rfl,
   (C10_unguarded_key_lookups defaultLogindIdle "s2" [("Type", "bogus")] []).2.1
      "bogus" rfl (by decide) rfl⟩
